import Mathlib

/-
Verification of the DefinitelyTyped slice (react v15 declarations, the yazl
test fixture with its xdialog tsconfig, and the jquery.cookie test fixture)
against its natural-language specification.  The repository is purely
declarative: its content is ambient type declarations and compile-time test
snippets.  The embedding below transcribes the declarations, the test
fixtures and the type-checker configuration into Lean data, together with a
small structural checker mirroring the type rules the claims depend on.
-/

namespace DT

/-- Shallow syntax of the TypeScript type expressions appearing in the
repository's declaration files.  `prim` covers keyword types such as
string, number, boolean, void, null, undefined and the literal type false;
`lit` is a string-literal type; `tvar` a type-parameter reference; `ref` a
named type without arguments; `app` a one-argument generic application
such as SFC applied to P; `union` and `inter` are the binary type
operators. -/
inductive TSTy where
| prim : String → TSTy
| lit : String → TSTy
| tvar : String → TSTy
| ref : String → TSTy
| app : String → TSTy → TSTy
| app2 : String → TSTy → TSTy → TSTy
| union : TSTy → TSTy → TSTy
| inter : TSTy → TSTy → TSTy
deriving DecidableEq, Repr

/-- The parts of a (left-associated) union type, flattened. -/
def TSTy.unionParts : TSTy → List TSTy
| .union a b => a.unionParts ++ b.unionParts
| t => [t]

/-- Repository file identifiers.  The jquery.cookie test fixture's original
path is not recorded, so it is identified by its placeholder name. -/
def reactIndexDts : String := "types/react/v15/index.d.ts"

/-- The yazl test fixture file. -/
def yazlTestsTs : String := "types/yazl/yazl-tests.ts"

/-- The jquery.cookie test fixture file (placeholder name). -/
def cookieTestsTs : String := "unnamed/part_000"

/-- The repository's compile-time-only test fixture files. -/
def testFixtureFiles : List String := [yazlTestsTs, cookieTestsTs]

/-- The repository's ambient declaration files present in the slice. -/
def declarationFiles : List String := [reactIndexDts]

--
-- Type-checker configuration (the xdialog tsconfig.json)
--

/-- The compilerOptions block of the xdialog tsconfig.json, field for
field as it appears in the source. -/
structure CompilerOptions where
  target : String
  lib : List String
  types : List String
  noEmit : Bool
  esModuleInterop : Bool
  forceConsistentCasingInFileNames : Bool
  module : String
  noImplicitAny : Bool
  strictNullChecks : Bool
  strictFunctionTypes : Bool
  noImplicitThis : Bool
deriving DecidableEq, Repr

/-- A tsconfig: compiler options plus the file list fed to the checker. -/
structure TsConfig where
  compilerOptions : CompilerOptions
  files : List String
deriving DecidableEq, Repr

/-- The xdialog tsconfig.json, transcribed from the source. -/
def xdialogTsconfig : TsConfig :=
  ⟨⟨ "es2016", ["es6", "dom"], ["./index.d.ts"], true, true, true,
     "commonjs", true, true, true, true⟩,
   ["index.d.ts", "test/xdialog-tests.ts"]⟩

--
-- Component API (react v15 index.d.ts)
--

/-- A method signature of an ambient class declaration: its name and its
declared return type.  Ambient members carry no bodies. -/
structure MethodSig where
  name : String
  ret : TSTy
deriving DecidableEq, Repr

/-- The declared return type of Component.render:
JSX.Element | null | false. -/
def renderReturnTy : TSTy :=
  .union (.union (.ref "JSX.Element") (.prim "null")) (.prim "false")

/-- The method signatures of the ambient class Component in the react v15
declaration file: the constructor, setState, forceUpdate and render. -/
def componentMethods : List MethodSig :=
  [ ⟨ "constructor", .prim "void"⟩,
    ⟨ "setState", .prim "void"⟩,
    ⟨ "forceUpdate", .prim "void"⟩,
    ⟨ "render", renderReturnTy⟩ ]

--
-- String-literal unions (react v15 index.d.ts)
--

/-- The CrossOrigin type alias:
"anonymous" | "use-credentials" | "" | undefined. -/
def CrossOrigin : TSTy :=
  .union (.union (.union (.lit "anonymous") (.lit "use-credentials"))
      (.lit "")) (.prim "undefined")

/-- The ModifierKey type alias: the fourteen modifier-key string
literals. -/
def ModifierKey : TSTy :=
  .union (.union (.union (.union (.union (.union (.union (.union (.union
    (.union (.union (.union (.union
      (.lit "Alt") (.lit "AltGraph")) (.lit "CapsLock")) (.lit "Control"))
      (.lit "Fn")) (.lit "FnLock")) (.lit "Hyper")) (.lit "Meta"))
      (.lit "NumLock")) (.lit "ScrollLock")) (.lit "Shift"))
      (.lit "Super")) (.lit "Symbol")) (.lit "SymbolLock")

/-- The CSSWideKeyword type alias: "initial" | "inherit" | "unset". -/
def CSSWideKeyword : TSTy :=
  .union (.union (.lit "initial") (.lit "inherit")) (.lit "unset")

/-- A union member is a fixed string literal or the undefined type. -/
def isLitOrUndefined : TSTy → Bool
| .lit _ => true
| .prim p => p == "undefined"
| _ => false

/-- Whether a value (a string, or none for undefined) matches one member
of a union: a string-literal member matches exactly its literal, the
undefined member matches the undefined value, and no other member shape
matches. -/
def memberMatches (v : Option String) : TSTy → Bool
| .lit s => v == some s
| .prim p => p == "undefined" && v == none
| _ => false

/-- Whether a value inhabits a union of string-literal members. -/
def inUnionOfLits (v : Option String) (t : TSTy) : Bool :=
  t.unionParts.any (memberMatches v)

/-- The string literals enumerated by a union type. -/
def litStrings (t : TSTy) : List String :=
  t.unionParts.filterMap fun m =>
    match m with
    | .lit s => some s
    | _ => none

--
-- React element interfaces (react v15 index.d.ts)
--

/-- The Key type alias: string | number. -/
def Key : TSTy := .union (.prim "string") (.prim "number")

/-- The declared type of the key field of ReactElement: Key | null, with
the Key alias written out. -/
def keyFieldTy : TSTy := .union Key (.prim "null")

/-- Interface inheritance: the fields of a derived interface are its own
fields together with the inherited fields it does not redeclare. -/
def mergeFields (parent own : List (String × TSTy)) : List (String × TSTy) :=
  own ++ parent.filter fun p => own.all fun o => o.1 ≠ p.1

/-- The fields of interface ReactElement: type, props and key, with the
declared types written out. -/
def ReactElementFields : List (String × TSTy) :=
  [ ("type", .union (.union (.prim "string")
        (.app "ComponentClass" (.tvar "P"))) (.app "SFC" (.tvar "P"))),
    ("props", .tvar "P"),
    ("key", keyFieldTy) ]

/-- The own (redeclared) fields of SFCElement extends ReactElement. -/
def SFCElementOwn : List (String × TSTy) :=
  [ ("type", .app "SFC" (.tvar "P")) ]

/-- The fields of interface SFCElement after inheritance. -/
def SFCElementFields : List (String × TSTy) :=
  mergeFields ReactElementFields SFCElementOwn

/-- The own fields of ComponentElement extends ReactElement: the narrowed
type field and the added optional ref field. -/
def ComponentElementOwn : List (String × TSTy) :=
  [ ("type", .app "ComponentClass" (.tvar "P")),
    ("ref", .union (.app "Ref" (.tvar "T")) (.prim "undefined")) ]

/-- The fields of interface ComponentElement after inheritance. -/
def ComponentElementFields : List (String × TSTy) :=
  mergeFields ReactElementFields ComponentElementOwn

/-- The own fields of DOMElement extends ReactElement: type narrowed to
string, ref of type Ref of the element. -/
def DOMElementOwn : List (String × TSTy) :=
  [ ("type", .prim "string"),
    ("ref", .app "Ref" (.tvar "T")) ]

/-- The fields of interface DOMElement after inheritance. -/
def DOMElementFields : List (String × TSTy) :=
  mergeFields ReactElementFields DOMElementOwn

/-- The own fields of DetailedReactHTMLElement extends DOMElement. -/
def DetailedReactHTMLElementOwn : List (String × TSTy) :=
  [ ("type", .ref "keyof ReactHTML") ]

/-- The fields of interface DetailedReactHTMLElement after inheritance. -/
def DetailedReactHTMLElementFields : List (String × TSTy) :=
  mergeFields DOMElementFields DetailedReactHTMLElementOwn

/-- The fields of interface ReactHTMLElement, which extends
DetailedReactHTMLElement with no own fields. -/
def ReactHTMLElementFields : List (String × TSTy) :=
  mergeFields DetailedReactHTMLElementFields []

/-- The own fields of ReactSVGElement extends DOMElement. -/
def ReactSVGElementOwn : List (String × TSTy) :=
  [ ("type", .ref "keyof ReactSVG") ]

/-- The fields of interface ReactSVGElement after inheritance. -/
def ReactSVGElementFields : List (String × TSTy) :=
  mergeFields DOMElementFields ReactSVGElementOwn

/-- The element interface table, mapping each element interface of the
declaration file (with CElement, the alias of ComponentElement) to its
fields after inheritance. -/
def elementInterfaceTable : List (String × List (String × TSTy)) :=
  [ ("ReactElement", ReactElementFields),
    ("SFCElement", SFCElementFields),
    ("ComponentElement", ComponentElementFields),
    ("CElement", ComponentElementFields),
    ("DOMElement", DOMElementFields),
    ("DetailedReactHTMLElement", DetailedReactHTMLElementFields),
    ("ReactHTMLElement", ReactHTMLElementFields),
    ("ReactSVGElement", ReactSVGElementFields) ]

/-- The element interface returned by each createElement overload, in
declaration order. -/
def createElementReturns : List String :=
  [ "DetailedReactHTMLElement", "DetailedReactHTMLElement",
    "ReactSVGElement", "DOMElement", "SFCElement", "CElement", "CElement",
    "ReactElement" ]

/-- The element interface returned by each factory type: Factory,
SFCFactory, ComponentFactory, DOMFactory, DetailedHTMLFactory and
SVGFactory. -/
def factoryReturns : List String :=
  [ "ReactElement", "SFCElement", "CElement", "DOMElement",
    "DetailedReactHTMLElement", "ReactSVGElement" ]

/-- The table lookup of the key field of an element interface. -/
def keyTyOf (n : String) : Option TSTy :=
  match elementInterfaceTable.lookup n with
  | some fields => fields.lookup "key"
  | none => none

/-- Whether a type expression mentions a given type name. -/
def TSTy.mentions : TSTy → String → Bool
| .prim p, n => p == n
| .lit _, _ => false
| .tvar a, n => a == n
| .ref a, n => a == n
| .app a b, n => a == n || b.mentions n
| .app2 a b c, n => a == n || b.mentions n || c.mentions n
| .union a b, n => a.mentions n || b.mentions n
| .inter a b, n => a.mentions n || b.mentions n

--
-- Structural object types and assignability
--

/-- A field of an object type: its name, whether it is optional, and its
declared type. -/
structure FieldD where
  fname : String
  optional : Bool
  fty : TSTy
deriving DecidableEq, Repr

/-- Field lookup in an object type. -/
def lookupField (R : List FieldD) (n : String) : Option FieldD :=
  R.find? fun f => f.fname == n

/-- Structural assignability P extends Q for object types, as the checker
applies it to these declarations: every field of Q must be present in P
with the same type (a required field of Q may not be satisfied by an
optional field of P), and a field of Q absent from P is allowed only when
it is optional. -/
def extendsB (P Q : List FieldD) : Bool :=
  Q.all fun f =>
    match lookupField P f.fname with
    | some g => (f.optional || !g.optional) && g.fty == f.fty
    | none => f.optional

--
-- The custom-component cloneElement overloads (react v15 index.d.ts)
--

/-- One cloneElement overload: the element parameter type, the declared
type of the props parameter, the type-parameter constraints (each pair
sub, sup standing for sub extends sup), and the return type. -/
structure CloneOverload where
  elementTy : TSTy
  propsTy : TSTy
  constraints : List (String × String)
  returnTy : TSTy
deriving DecidableEq, Repr

/-- The three custom-component overloads of cloneElement, transcribed
from the declaration file: for SFCElement, CElement and ReactElement the
props parameter is the bare type variable Q constrained by P extends Q
(the second overload also constrains T by Component), and each returns
the element parameter's type. -/
def customCloneOverloads : List CloneOverload :=
  [ ⟨ .app "SFCElement" (.tvar "P"), .tvar "Q", [("P", "Q")],
      .app "SFCElement" (.tvar "P")⟩,
    ⟨ .app2 "CElement" (.tvar "P") (.tvar "T"), .tvar "Q",
      [("P", "Q"), ("T", "Component")],
      .app2 "CElement" (.tvar "P") (.tvar "T")⟩,
    ⟨ .app "ReactElement" (.tvar "P"), .tvar "Q", [("P", "Q")],
      .app "ReactElement" (.tvar "P")⟩ ]

/-- The ButtonProps example of the declaration file's header comment:
label is a required string, isDisabled an optional boolean. -/
def ButtonProps : List FieldD :=
  [ ⟨ "label", false, .prim "string"⟩,
    ⟨ "isDisabled", true, .prim "boolean"⟩ ]

/-- The inferred type of the props literal passing only label. -/
def propsLabelOnly : List FieldD := [⟨ "label", false, .prim "string"⟩]

/-- The inferred type of a props literal passing a key. -/
def propsWithKey : List FieldD := [⟨ "key", false, .prim "string"⟩]

/-- The inferred type of a props literal passing a ref for Button. -/
def propsWithRef : List FieldD :=
  [ ⟨ "ref", false, .app "Ref" (.ref "Button")⟩]

/-- ClassAttributes instantiated at Button, from the declaration file:
an optional key of type Key | undefined inherited from Attributes, and an
optional ref of type Ref of Button | undefined.  This is the type named
by the explicit cast in the header comment's workaround. -/
def ClassAttributesButton : List FieldD :=
  [ ⟨ "key", true, .union Key (.prim "undefined")⟩,
    ⟨ "ref", true, .union (.app "Ref" (.ref "Button")) (.prim "undefined")⟩ ]

--
-- The jquery.cookie fixture and its options type
--

/-- A value occurring in the cookie test fixture's option literals. -/
inductive JSVal where
| num : Int → JSVal
| str : String → JSVal
| boolV : Bool → JSVal
| date : JSVal
deriving DecidableEq, Repr

/-- Whether a fixture value has a declared type: numbers against the
number type, strings against the string type and matching literal types,
booleans against boolean, Date values against the Date reference, and a
union accepts a value any of its parts accepts. -/
def hasType : JSVal → TSTy → Bool
| v, .union a b => hasType v a || hasType v b
| .num _, .prim p => p == "number"
| .str _, .prim p => p == "string"
| .str s, .lit l => s == l
| .boolV _, .prim p => p == "boolean"
| .date, .ref r => r == "Date"
| _, _ => false

/-- Modelled from the spec: the jquery.cookie declaration file is not in
the slice (only its test fixture is).  The structured options value it
declares is transcribed from the spec's description — an expires field
taking a number or a Date but not a string — together with the fixture's
CookieOptions class implementing it with expires, path, domain and secure
fields. -/
def JQueryCookieOptions : List FieldD :=
  [ ⟨ "expires", true, .union (.prim "number") (.ref "Date")⟩,
    ⟨ "path", true, .prim "string"⟩,
    ⟨ "domain", true, .prim "string"⟩,
    ⟨ "secure", true, .prim "boolean"⟩ ]

/-- Compile-time check of an options literal against JQueryCookieOptions:
every given field must be declared and its value must have the declared
field type. -/
def checkOptions (o : List (String × JSVal)) : Bool :=
  o.all fun f =>
    match lookupField JQueryCookieOptions f.1 with
    | some g => hasType f.2 g.fty
    | none => false

/-- A cookie call of the fixture that passes an options literal, with the
fixture's expectation: expectError is true exactly for the call under the
ts-expect-error marker. -/
structure CookieCall where
  opts : List (String × JSVal)
  expectError : Bool
deriving DecidableEq, Repr

/-- The three options-bearing cookie calls of the fixture: numeric
expires, Date expires, and the string expires "tomorrow" marked as a
compile-time rejection. -/
def cookieOptionCalls : List CookieCall :=
  [ ⟨ [("expires", .num 7)], false⟩,
    ⟨ [("expires", .date)], false⟩,
    ⟨ [("expires", .str "tomorrow")], true⟩ ]

--
-- Function declarations of the slice
--

/-- A function-like declaration: the file it appears in, its name (or a
description for anonymous function expressions), and whether the source
gives it an implementation body. -/
structure FunctionDecl where
  file : String
  name : String
  hasBody : Bool
deriving DecidableEq, Repr

/-- Every function-like declaration of the slice whose grammar position
permits a body: the top-level functions of namespace React and the
members of its ambient classes in the declaration file (ambient, so
bodiless), the TestObject constructor of the cookie fixture, and the
function expressions of the yazl fixture.  Interface members and
type-level call signatures are omitted: the grammar gives them no body
position.  Overloads are listed once per declared signature. -/
def functionDecls : List FunctionDecl :=
  [ ⟨ reactIndexDts, "createClass", false⟩ ] ++
  List.replicate 7 ⟨ reactIndexDts, "createFactory", false⟩ ++
  List.replicate 8 ⟨ reactIndexDts, "createElement", false⟩ ++
  List.replicate 7 ⟨ reactIndexDts, "cloneElement", false⟩ ++
  [ ⟨ reactIndexDts, "isValidElement", false⟩,
    ⟨ reactIndexDts, "Component.constructor", false⟩,
    ⟨ reactIndexDts, "Component.setState", false⟩,
    ⟨ reactIndexDts, "Component.forceUpdate", false⟩,
    ⟨ reactIndexDts, "Component.render", false⟩,
    ⟨ cookieTestsTs, "TestObject.constructor", true⟩,
    ⟨ yazlTestsTs, "on error callback", true⟩,
    ⟨ yazlTestsTs, "pipe close callback", true⟩,
    ⟨ yazlTestsTs, "addReadStreamLazy callback", true⟩,
    ⟨ yazlTestsTs, "addReadStreamLazy options callback", true⟩ ]

--
-- Cross-file references of the slice
--

/-- A reference from one file of the slice to a declaration living
outside that file: the referencing file, the referenced symbol, the file
or surface the declaration lives in, and whether that target is itself a
file of the repository (as opposed to a library surface bundled with the
checker). -/
structure CrossRef where
  file : String
  name : String
  target : String
  targetInRepo : Bool
deriving DecidableEq, Repr

/-- The cross-file references of the slice: the yazl fixture imports
ZipFile from the yazl declaration file and fs from the node type surface,
the cookie fixture implements JQueryCookieOptions and calls the cookie
member added to the jquery global, both declared in the jquery.cookie
declaration file, and the react declaration file's only outward
references are the native DOM event types of the bundled dom library
surface. -/
def crossFileRefs : List CrossRef :=
  [ ⟨ yazlTestsTs, "ZipFile", "types/yazl/index.d.ts", true⟩,
    ⟨ yazlTestsTs, "fs", "types/node/index.d.ts", true⟩,
    ⟨ cookieTestsTs, "JQueryCookieOptions", "jquery.cookie declaration file", true⟩,
    ⟨ cookieTestsTs, "cookie member of the jquery global", "jquery.cookie declaration file", true⟩,
    ⟨ reactIndexDts, "AnimationEvent", "dom library surface", false⟩,
    ⟨ reactIndexDts, "ClipboardEvent", "dom library surface", false⟩,
    ⟨ reactIndexDts, "KeyboardEvent", "dom library surface", false⟩,
    ⟨ reactIndexDts, "MouseEvent", "dom library surface", false⟩,
    ⟨ reactIndexDts, "HTMLElement", "dom library surface", false⟩,
    ⟨ reactIndexDts, "SVGElement", "dom library surface", false⟩ ]

--
-- Source patterns relevant to architecture (claim about cycles,
-- inheritance, global state and coroutines)
--

/-- The pattern kinds the architectural claim quantifies over.
No coroutine construct occurs anywhere in the slice. -/
inductive PatternKind where
| globalAssign
| classExtends
| recursiveTypeRef
| coroutineConstruct
deriving DecidableEq, Repr

/-- An occurrence of one of the architectural patterns in a file. -/
structure SourcePattern where
  file : String
  info : String
  kind : PatternKind
deriving DecidableEq, Repr

/-- The occurrences of the architectural patterns in the slice: the
cookie fixture assigns to the json flag and the defaults property of the
global cookie object, the declaration file declares PureComponent
extending Component, and its ReactNode aliases form a reference cycle.
No file contains an async function, a generator, await or yield. -/
def sourcePatterns : List SourcePattern :=
  [ ⟨ cookieTestsTs, "cookie json flag assignment", .globalAssign⟩,
    ⟨ cookieTestsTs, "cookie defaults assignment", .globalAssign⟩,
    ⟨ reactIndexDts, "PureComponent extends Component", .classExtends⟩,
    ⟨ reactIndexDts, "ReactNode alias cycle", .recursiveTypeRef⟩ ]

/-- The reference edges among the react node type aliases, from the
declaration file: ReactChild mentions ReactElement, ReactNodeArray is an
array of ReactNode, ReactFragment mentions ReactNodeArray, and ReactNode
mentions ReactChild and ReactFragment. -/
def typeRefEdges : List (String × String) :=
  [ ("ReactChild", "ReactElement"),
    ("ReactNodeArray", "ReactNode"),
    ("ReactFragment", "ReactNodeArray"),
    ("ReactNode", "ReactChild"),
    ("ReactNode", "ReactFragment") ]

/-- Reachability along the type reference edges within a bounded number
of steps. -/
def reachN : Nat → String → String → Bool
| 0, _, _ => false
| n + 1, a, b =>
    typeRefEdges.any fun e => e.1 == a && (e.2 == b || reachN n e.2 b)

--
-- Test items of the fixtures
--

/-- One item of a test fixture: a type assertion comparing an
expression's type against a named type, an expected compile-time
rejection, a plain snippet that must type-check, or — the kind no fixture
contains — a runtime check comparing a computed output against an
expected value. -/
inductive TestItem where
| expectType : String → String → TestItem
| expectError : String → TestItem
| snippet : String → TestItem
| runtimeCheck : String → String → TestItem
deriving DecidableEq, Repr

/-- Whether a test item is settled entirely by the type checker. -/
def TestItem.isTypecheckAssertion : TestItem → Bool
| .runtimeCheck _ _ => false
| _ => true

/-- The items of the yazl fixture, in source order: snippets that must
type-check, and the two type assertions on outputStream and on the
return of the error-event registration. -/
def yazlTestItems : List TestItem :=
  [ .snippet "construct ZipFile",
    .snippet "addFile file1",
    .snippet "addFile path mapping",
    .expectType "ReadableStream" "zipfile.outputStream",
    .expectType "ZipFile" "zipfile.on error callback",
    .snippet "pipe outputStream to write stream",
    .snippet "addReadStream stdin",
    .snippet "addReadStreamLazy with callback",
    .snippet "addReadStreamLazy with options and callback",
    .snippet "addBuffer hello",
    .snippet "end the zipfile" ]

/-- The items of the cookie fixture, in source order: snippets that must
type-check, and the expected rejection of the string expires value. -/
def cookieTestItems : List TestItem :=
  [ .snippet "set cookie value",
    .snippet "set cookie with numeric expires",
    .snippet "set cookie with Date expires",
    .expectError "set cookie with string expires",
    .snippet "read cookie",
    .snippet "construct TestObject",
    .snippet "construct CookieOptions and set fields",
    .snippet "enable json flag",
    .snippet "set cookie with object value and options",
    .snippet "read cookie with cast",
    .snippet "log result text",
    .snippet "assign cookie defaults" ]

end DT

--
-- Claim C5
--

/-- C5: the type-checker configuration validating the declaration files
sets a target language level (es2016) and included library surfaces
(es6, dom), enables strictNullChecks and forceConsistentCasingInFileNames,
and enumerates the declaration/test file list fed to the checker. -/
theorem C5_tsconfig_shape :
    DT.xdialogTsconfig.compilerOptions.target = "es2016" ∧
    DT.xdialogTsconfig.compilerOptions.lib = ["es6", "dom"] ∧
    DT.xdialogTsconfig.compilerOptions.strictNullChecks = true ∧
    DT.xdialogTsconfig.compilerOptions.forceConsistentCasingInFileNames = true ∧
    DT.xdialogTsconfig.files = ["index.d.ts", "test/xdialog-tests.ts"] ∧
    DT.xdialogTsconfig.files ≠ [] := by
  refine ⟨rfl, rfl, rfl, rfl, rfl, ?_⟩
  decide

--
-- Claim C10
--

/-- C10: in the react v15 declarations, Component.render returns
JSX.Element | null | false — so a component may render nothing (null and
false are members of the return union) — and setState and forceUpdate
both return void. -/
theorem C10_component_methods :
    (DT.componentMethods.filter (fun m => m.name = "render")).all
        (fun m => m.ret = DT.renderReturnTy) = true ∧
    DT.TSTy.prim "null" ∈ DT.renderReturnTy.unionParts ∧
    DT.TSTy.prim "false" ∈ DT.renderReturnTy.unionParts ∧
    (DT.componentMethods.filter
        (fun m => m.name = "setState" ∨ m.name = "forceUpdate")).all
        (fun m => m.ret = DT.TSTy.prim "void") = true ∧
    DT.MethodSig.mk "render" DT.renderReturnTy ∈ DT.componentMethods := by
  refine ⟨?_, ?_, ?_, ?_, ?_⟩ <;> decide

--
-- Claim C7
--

/-- A value inhabiting a union can only do so through a string-literal
member (making the value that literal) or the undefined member (making
the value undefined): this is forced by the shape of memberMatches. -/
lemma inUnionOfLits_cases (v : Option String) (t : DT.TSTy)
    (h : DT.inUnionOfLits v t = true) :
    v = none ∨ v ∈ (DT.litStrings t).map Option.some := by
  unfold DT.inUnionOfLits at h
  rw [List.any_eq_true] at h
  obtain ⟨m, hm, hmatch⟩ := h
  cases m with
  | lit s =>
      right
      have hv : v = some s := by
        simp only [DT.memberMatches, beq_iff_eq] at hmatch
        exact hmatch
      subst hv
      exact List.mem_map.mpr ⟨s,
        List.mem_filterMap.mpr ⟨DT.TSTy.lit s, hm, rfl⟩, rfl⟩
  | prim p =>
      left
      simp only [DT.memberMatches, Bool.and_eq_true, beq_iff_eq] at hmatch
      exact hmatch.2
  | tvar a => simp [DT.memberMatches] at hmatch
  | ref a => simp [DT.memberMatches] at hmatch
  | app a b => simp [DT.memberMatches] at hmatch
  | app2 a b c => simp [DT.memberMatches] at hmatch
  | union a b => simp [DT.memberMatches] at hmatch
  | inter a b => simp [DT.memberMatches] at hmatch

/-- C7: each member of the string-literal unions CrossOrigin, ModifierKey
and CSSWideKeyword is a fixed string literal or undefined, and any value
inhabiting one of these unions is undefined or one of the enumerated
strings. -/
theorem C7_string_literal_unions :
    ((DT.CrossOrigin.unionParts ++ DT.ModifierKey.unionParts ++
        DT.CSSWideKeyword.unionParts).all DT.isLitOrUndefined = true) ∧
    (∀ v : Option String, DT.inUnionOfLits v DT.CrossOrigin = true →
        v = none ∨ v ∈ (DT.litStrings DT.CrossOrigin).map Option.some) ∧
    (∀ v : Option String, DT.inUnionOfLits v DT.ModifierKey = true →
        v = none ∨ v ∈ (DT.litStrings DT.ModifierKey).map Option.some) ∧
    (∀ v : Option String, DT.inUnionOfLits v DT.CSSWideKeyword = true →
        v = none ∨ v ∈ (DT.litStrings DT.CSSWideKeyword).map Option.some) := by
  refine ⟨by decide, ?_, ?_, ?_⟩ <;>
    exact fun v h => inUnionOfLits_cases v _ h

/-- Witness for C7: the concrete value "Alt" inhabits ModifierKey and is
indeed one of its enumerated strings. -/
theorem C7_string_literal_unions_witness :
    DT.inUnionOfLits (some "Alt") DT.ModifierKey = true ∧
    ((some "Alt" : Option String) = none ∨
      some "Alt" ∈ (DT.litStrings DT.ModifierKey).map Option.some) := by
  refine ⟨by decide, C7_string_literal_unions.2.2.1 (some "Alt") (by decide)⟩

--
-- Claim C9
--

/-- C9: every element interface of the declaration file, including every
interface returned by a createElement overload or a factory type, has a
key field of type Key | null (string, number or null), and each refining
element interface redeclares only the type and ref fields. -/
theorem C9_element_key_shape :
    (DT.keyTyOf "ReactElement" = some DT.keyFieldTy) ∧
    (DT.keyFieldTy.unionParts =
      [DT.TSTy.prim "string", DT.TSTy.prim "number", DT.TSTy.prim "null"]) ∧
    ((DT.elementInterfaceTable.map Prod.fst).all
        (fun n => DT.keyTyOf n == some DT.keyFieldTy) = true) ∧
    ((DT.createElementReturns ++ DT.factoryReturns).all
        (fun n => DT.keyTyOf n == some DT.keyFieldTy) = true) ∧
    ((DT.SFCElementOwn ++ DT.ComponentElementOwn ++ DT.DOMElementOwn ++
        DT.DetailedReactHTMLElementOwn ++ DT.ReactSVGElementOwn).all
        (fun f => f.1 == "type" || f.1 == "ref") = true) := by
  refine ⟨?_, ?_, ?_, ?_, ?_⟩ <;> decide

--
-- Claim C8
--

/-- C8: in every custom-component cloneElement overload the props
parameter is the bare type variable Q — never intersected with
Attributes — whose only bound is P extends Q, and the return type is the
element parameter's type; consequently, under the structural
assignability the checker applies, cloning the ButtonProps example with
label is accepted, while passing key or ref in the props argument is
rejected, and is only accepted through the explicit cast to
ClassAttributes of Button. -/
theorem C8_cloneElement_props_constraint :
    (DT.customCloneOverloads.all fun o =>
        o.propsTy == DT.TSTy.tvar "Q" &&
        !(o.propsTy.mentions "Attributes") &&
        (o.constraints.filter fun c => c.2 == "Q") == [("P", "Q")] &&
        o.returnTy == o.elementTy) = true ∧
    DT.extendsB DT.ButtonProps DT.propsLabelOnly = true ∧
    DT.extendsB DT.ButtonProps DT.propsWithKey = false ∧
    DT.extendsB DT.ButtonProps DT.propsWithRef = false ∧
    DT.extendsB DT.ButtonProps DT.ClassAttributesButton = true := by
  refine ⟨?_, ?_, ?_, ?_, ?_⟩ <;> decide

--
-- Claim C3
--

/-- C3: the cookie fixture's options-bearing calls are settled entirely
by the compile-time check of the options literal against the declared
options shape: the calls with a numeric or Date expires are accepted,
the call with the string expires "tomorrow" is rejected, and each
fixture expectation matches the checker's verdict. -/
theorem C3_cookie_option_diagnostics :
    (DT.cookieOptionCalls.all
        (fun c => DT.checkOptions c.opts == !c.expectError) = true) ∧
    DT.checkOptions [("expires", DT.JSVal.num 7)] = true ∧
    DT.checkOptions [("expires", DT.JSVal.date)] = true ∧
    DT.checkOptions [("expires", DT.JSVal.str "tomorrow")] = false := by
  refine ⟨?_, ?_, ?_, ?_⟩ <;> decide

--
-- Claim C1
--

/-- C1 counterexample: the claim that every declared function of the
repository is a signature only fails — the TestObject constructor of the
cookie fixture carries an implementation body, so the function
declarations are not all bodiless. -/
theorem C1_counterexample_constructor_body :
    DT.FunctionDecl.mk DT.cookieTestsTs "TestObject.constructor" true
      ∈ DT.functionDecls ∧
    ¬ (DT.functionDecls.all fun f => !f.hasBody) = true := by
  refine ⟨by decide, by decide⟩

/-- C1 amended: every function declared in the ambient declaration file
is a signature only; the function declarations carrying bodies are
exactly in the compile-time-only test fixture files (the TestObject
constructor and the yazl fixture's callback function expressions). -/
theorem C1_bodies_only_in_fixtures :
    ((DT.functionDecls.filter fun f => f.hasBody).all
        fun f => DT.testFixtureFiles.contains f.file) = true ∧
    ((DT.functionDecls.filter fun f => f.file == DT.reactIndexDts).all
        fun f => !f.hasBody) = true := by
  refine ⟨by decide, by decide⟩

--
-- Claim C2
--

/-- C2 counterexample: the claim that no file depends on another
repository file fails — the yazl fixture imports ZipFile from the yazl
declaration file, a cross-file import targeting a file of the
repository. -/
theorem C2_counterexample_zipfile_import :
    DT.CrossRef.mk DT.yazlTestsTs "ZipFile" "types/yazl/index.d.ts" true
      ∈ DT.crossFileRefs ∧
    ¬ (DT.crossFileRefs.all fun r => !r.targetInRepo) = true := by
  refine ⟨by decide, by decide⟩

/-- C2 amended: the declaration file depends on no other repository file
(its outward references target only library surfaces bundled with the
checker), while every cross-file reference to a repository file
originates in a test fixture and targets the declaration file of the
library surface that fixture exercises. -/
theorem C2_fixture_only_dependencies :
    ((DT.crossFileRefs.filter fun r => r.targetInRepo).all
        fun r => DT.testFixtureFiles.contains r.file) = true ∧
    ((DT.crossFileRefs.filter fun r => r.file == DT.reactIndexDts).all
        fun r => !r.targetInRepo) = true := by
  refine ⟨by decide, by decide⟩

--
-- Claim C6
--

/-- C6 counterexample: the claim that no source file contains cyclic type
graphs or global mutable state fails — the cookie fixture assigns to the
json flag of the global cookie object, and the ReactNode aliases of the
declaration file form a reference cycle (ReactNode reaches itself in
three steps through ReactFragment and ReactNodeArray). -/
theorem C6_counterexample_global_assign_and_cycle :
    DT.SourcePattern.mk DT.cookieTestsTs "cookie json flag assignment"
      DT.PatternKind.globalAssign ∈ DT.sourcePatterns ∧
    ¬ (DT.sourcePatterns.all fun p =>
        !(p.kind == DT.PatternKind.globalAssign)) = true ∧
    DT.reachN 3 "ReactNode" "ReactNode" = true := by
  refine ⟨by decide, by decide, by decide⟩

/-- C6 amended: no file of the repository contains a coroutine construct;
the assignments to global mutable state occur only in the
compile-time-only test fixtures, and the one class inheritance
declaration lives in the ambient declaration file, so none of these
patterns involves any execution or runtime dispatch. -/
theorem C6_no_coroutines_fixture_state :
    (DT.sourcePatterns.all fun p =>
        !(p.kind == DT.PatternKind.coroutineConstruct)) = true ∧
    ((DT.sourcePatterns.filter fun p =>
        p.kind == DT.PatternKind.globalAssign).all
        fun p => DT.testFixtureFiles.contains p.file) = true ∧
    ((DT.sourcePatterns.filter fun p =>
        p.kind == DT.PatternKind.classExtends).all
        fun p => DT.declarationFiles.contains p.file) = true := by
  refine ⟨by decide, by decide, by decide⟩

--
-- Claim C4
--

/-- C4: every test item of both fixtures is a type-checker acceptance or
rejection assertion — none is a runtime input/output check — and the yazl
fixture asserts the type ReadableStream for zipfile.outputStream and the
type ZipFile for the return of the error-event registration. -/
theorem C4_tests_are_typecheck_assertions :
    ((DT.yazlTestItems ++ DT.cookieTestItems).all
        DT.TestItem.isTypecheckAssertion) = true ∧
    DT.TestItem.expectType "ReadableStream" "zipfile.outputStream"
      ∈ DT.yazlTestItems ∧
    DT.TestItem.expectType "ZipFile" "zipfile.on error callback"
      ∈ DT.yazlTestItems ∧
    DT.TestItem.expectError "set cookie with string expires"
      ∈ DT.cookieTestItems := by
  refine ⟨by decide, by decide, by decide, by decide⟩
